import Mathlib

/-!
Verification development for the TLS channel orchestrator
(`src/tls/tls_channel.cpp`).  The channel logic (state fields, record
dispatch, alert handling, fragmentation, key export) is embedded from the
source.  Collaborators whose code is not part of this repository snapshot
(record codec internals, alert/heartbeat wire grammar, sequence-number
containers, the KDF) are modelled from the specification, as noted on each
definition.
-/

/-- Modelled from the spec: TLS record content-type code for change-cipher-spec
(the numeric enum lives in a header not present in the sources). -/
def CHANGE_CIPHER_SPEC : Nat := 20

/-- Modelled from the spec: content-type code for alert records. -/
def ALERT : Nat := 21

/-- Modelled from the spec: content-type code for handshake records. -/
def HANDSHAKE : Nat := 22

/-- Modelled from the spec: content-type code for application-data records. -/
def APPLICATION_DATA : Nat := 23

/-- Modelled from the spec: content-type code for heartbeat records. -/
def HEARTBEAT : Nat := 24

/-- Modelled from the spec: sentinel content type meaning no complete record
was produced by the record reader. -/
def NO_RECORD : Nat := 256

/-- Modelled from the spec: maximum plaintext fragment allowed by the
protocol (the fixed protocol ceiling of section 3). -/
def MAX_PLAINTEXT_SIZE : Nat := 16384

/-- Modelled from the spec: the null compression method; the channel rejects
any other negotiated compression. -/
def NO_COMPRESSION : Nat := 0

/-- Modelled from the spec: alert type code for close-notify. -/
def CLOSE_NOTIFY : Nat := 0

/-- Modelled from the spec: alert type code for unexpected-message. -/
def UNEXPECTED_MESSAGE : Nat := 10

/-- Modelled from the spec: alert type code for record-overflow. -/
def RECORD_OVERFLOW : Nat := 22

/-- Modelled from the spec: alert type code for handshake-failure. -/
def HANDSHAKE_FAILURE : Nat := 40

/-- Modelled from the spec: alert type code for decode-error. -/
def DECODE_ERROR : Nat := 50

/-- Modelled from the spec: alert type code for internal-error. -/
def INTERNAL_ERROR : Nat := 80

/-- Modelled from the spec: alert type code for no-renegotiation. -/
def NO_RENEGOTIATION : Nat := 100

/-- Modelled from the spec: the null (invalid) alert type used by the
default-constructed alert value. -/
def NULL_ALERT : Nat := 256

/-- Modelled from the spec: pseudo alert code used to tag heartbeat payloads
delivered to the application callback. -/
def HEARTBEAT_PAYLOAD : Nat := 257

/-- Modelled from the spec: a protocol version is identified by a transport
family (ordered stream vs datagram) and an ordering code; `ordinal 0` stands
for SSLv3, `ordinal 1` for TLS v1.0, higher ordinals for newer versions. -/
structure Protocol_Version where
  datagram : Bool
  ordinal : Nat
deriving DecidableEq, Repr, Inhabited

/-- Version accessor mirroring `Protocol_Version::is_datagram_protocol`. -/
def Protocol_Version.is_datagram_protocol (v : Protocol_Version) : Bool :=
  v.datagram

/-- Modelled from the spec: a negotiated cipher suite, reduced to its
identifier and whether its bulk cipher runs in CBC mode (the only property
the channel consults, via the cipher state's explicit-IV tag). -/
structure Ciphersuite where
  id : Nat
  cbc : Bool
deriving DecidableEq, Repr, Inhabited

/-- Modelled from the spec: derived session key material; only the master
secret is consulted by the channel (for key export). -/
structure Session_Keys where
  master_secret : List Nat
deriving DecidableEq, Repr, Inhabited

/-- Modelled from the spec: the server hello fields the channel reads:
session identifier, compression method, heartbeat flags, server random and
secure-renegotiation data. -/
structure Server_Hello where
  session_id : List Nat
  compression_method : Nat
  supports_heartbeats : Bool
  peer_can_send_heartbeats : Bool
  random : List Nat
  secure_renegotiation : Bool
  renegotiation_info : List Nat
deriving DecidableEq, Repr, Inhabited

/-- Modelled from the spec: the client hello fields the channel reads. -/
structure Client_Hello where
  random : List Nat
  secure_renegotiation : Bool
  renegotiation_info : List Nat
deriving DecidableEq, Repr, Inhabited

/-- Modelled from the spec: a handshake state accumulates the negotiation in
progress.  Construction of the concrete client/server handshake state and
handshake-message dispatch are out of scope (spec section 1); the channel
reads the fields below.  `ioIsDatagram` records the transport machinery
chosen at creation; `ioInput` records record fragments fed to reassembly. -/
structure Handshake_State where
  version : Protocol_Version
  ioIsDatagram : Bool
  ioInput : List (Nat × List Nat × Nat)
  serverHello : Option Server_Hello
  clientHello : Option Client_Hello
  ciphersuite : Ciphersuite
  sessionKeys : Session_Keys
  prfId : Nat
deriving DecidableEq, Repr, Inhabited

/-- Connection side, as in the source's `Connection_Side`. -/
inductive Connection_Side where
  | CLIENT
  | SERVER
deriving DecidableEq, Repr, Inhabited

/-- Modelled from the spec: a connection cipher state is an immutable bundle
built from the negotiated version, side, suite and session keys
(`Connection_Cipher_State` constructor arguments at the call sites in
`tls_channel.cpp`). -/
structure Connection_Cipher_State where
  version : Protocol_Version
  side : Connection_Side
  suite : Ciphersuite
  keys : Session_Keys
deriving DecidableEq, Repr, Inhabited

/-- Modelled from the spec and the source comment in `send_record_array`:
legacy CBC mode without an explicit per-record IV is CBC under SSLv3 or
TLS v1.0 (ordinal at most 1). -/
def Connection_Cipher_State.cbc_without_explicit_iv
    (cs : Connection_Cipher_State) : Bool :=
  cs.suite.cbc && decide (cs.version.ordinal ≤ 1)

/-- Modelled from the spec (section 4.1): the sequence-numbering object keeps
per-direction epochs and counters; a cipher-spec change bumps the matching
epoch without recreating the object. -/
structure Connection_Sequence_Numbers where
  readEpoch : Nat
  writeEpoch : Nat
  readSeq : Nat
  writeSeq : Nat
deriving DecidableEq, Repr, Inhabited

/-- Fresh sequence-numbering object, created at the first handshake. -/
def initSeqNumbers : Connection_Sequence_Numbers :=
  { readEpoch := 0, writeEpoch := 0, readSeq := 0, writeSeq := 0 }

/-- An alert value object: a type code and a fatal flag
(spec section 3, source class `Alert`). -/
structure Alert where
  type : Nat
  fatal : Bool
deriving DecidableEq, Repr, Inhabited

/-- The default-constructed (null) alert passed with plain application data. -/
def Alert.null : Alert := { type := NULL_ALERT, fatal := false }

/-- Modelled from the spec: an alert is well-formed when its type is not the
null sentinel. -/
def Alert.is_valid (a : Alert) : Bool := a.type ≠ NULL_ALERT

/-- Modelled from the spec: two-byte alert wire form, level then type. -/
def Alert.serialize (a : Alert) : List Nat :=
  [if a.fatal then 2 else 1, a.type]

/-- Modelled from the spec: parsing an alert record payload into type plus
fatal flag; a payload that is not exactly two bytes is a decoding failure. -/
def alertParse : List Nat → Option Alert
  | [lvl, t] => some { type := t, fatal := lvl = 2 }
  | _ => none

/-- Modelled from the spec: a heartbeat message is a kind (request or
response) and a payload. -/
structure Heartbeat_Message where
  isRequest : Bool
  payload : List Nat
deriving DecidableEq, Repr, Inhabited

/-- Modelled from the spec: heartbeat wire form, kind byte then payload;
kind 1 is a request, kind 2 a response, anything else a decoding failure. -/
def heartbeatParse : List Nat → Option Heartbeat_Message
  | 1 :: rest => some { isRequest := true, payload := rest }
  | 2 :: rest => some { isRequest := false, payload := rest }
  | _ => none

/-- Wire form of a heartbeat message, inverse of `heartbeatParse`. -/
def Heartbeat_Message.contents (m : Heartbeat_Message) : List Nat :=
  (if m.isRequest then 1 else 2) :: m.payload

/-- The failure taxonomy of the source: `TLS_Exception` carries its own alert
type (this includes `Unexpected_Message`); `Decoding_Error`,
`Internal_Error` and plain runtime errors are distinct catch cases of
`Channel::received_data`. -/
inductive TLSError where
  | tlsExc (alertType : Nat) (msg : String)
  | decodingError (msg : String)
  | internalError (msg : String)
  | runtimeError (msg : String)
deriving DecidableEq, Repr

/-- The alert code `received_data` sends for a given failure, following its
catch clauses: a TLS exception maps to its own type, a decoding failure to
decode-error, an internal error and any other fault to internal-error. -/
def alertCodeOf : TLSError → Nat
  | .tlsExc t _ => t
  | .decodingError _ => DECODE_ERROR
  | .internalError _ => INTERNAL_ERROR
  | .runtimeError _ => INTERNAL_ERROR

/-- Observable effects of the channel: bytes handed to the emission callback
(one record per event, content type plus plaintext payload) and deliveries
to the application callback (bytes plus alert). -/
inductive Event where
  | emit (recType : Nat) (payload : List Nat)
  | deliver (bytes : List Nat) (alert : Alert)
deriving DecidableEq, Repr

/-- The channel state: the fields of `Channel` in `tls_channel.cpp`.  The
external session cache is carried as the list of stored session identifiers
so that cache removal is observable. -/
structure Channel where
  active : Option Handshake_State
  pending : Option Handshake_State
  seqNums : Option Connection_Sequence_Numbers
  readCipher : Option Connection_Cipher_State
  writeCipher : Option Connection_Cipher_State
  maxFragment : Nat
  closed : Bool
  sessionCache : List (List Nat)
deriving DecidableEq, Repr

/-- A freshly constructed channel. -/
def Channel.init : Channel :=
  { active := none, pending := none, seqNums := none,
    readCipher := none, writeCipher := none,
    maxFragment := MAX_PLAINTEXT_SIZE, closed := false, sessionCache := [] }

/-- Session-cache removal by identifier (`Session_Manager::remove_entry`). -/
def remove_entry (cache : List (List Nat)) (sid : List Nat) : List (List Nat) :=
  cache.filter (fun s => s ≠ sid)

/-- Modelled from the spec: the channel is active when an Active handshake
state exists and the connection has not been closed (the accessor lives in
the channel header, not among the sources; spec sections 3 and 4.6). -/
def Channel.is_active (ch : Channel) : Bool :=
  ch.active.isSome && !ch.closed

/-- Accessor mirroring `Channel::peer_supports_heartbeats`. -/
def Channel.peer_supports_heartbeats (ch : Channel) : Bool :=
  match ch.active with
  | some a =>
    match a.serverHello with
    | some sh => sh.supports_heartbeats
    | none => false
  | none => false

/-- Accessor mirroring `Channel::heartbeat_sending_allowed`. -/
def Channel.heartbeat_sending_allowed (ch : Channel) : Bool :=
  match ch.active with
  | some a =>
    match a.serverHello with
    | some sh => sh.peer_can_send_heartbeats
    | none => false
  | none => false

/-- Modelled from the spec: a fresh handshake state as produced by
`new_handshake_state` (concrete client/server construction is out of scope);
it carries the requested version and the transport machinery bound to the
requested version's family. -/
def new_handshake_state (version : Protocol_Version) : Handshake_State :=
  { version := version, ioIsDatagram := version.is_datagram_protocol,
    ioInput := [], serverHello := none, clientHello := none,
    ciphersuite := default, sessionKeys := { master_secret := [] },
    prfId := 0 }

/-- Result of an operation that either yields a value or fails; the channel
reflecting any mutations made before the failure is carried in both cases,
matching the C++ object surviving a throw. -/
inductive CHSResult where
  | ok (ch : Channel) (st : Handshake_State)
  | err (ch : Channel) (e : TLSError)
deriving DecidableEq, Repr

/-- Embedding of `Channel::create_handshake_state`: fails with an internal
error while a Pending state exists; rejects a transport-family change
against an existing Active state; creates the sequence-numbering object on
first use; installs a fresh pending state whose transport machinery follows
the requested version, then overrides its version with the Active state's
version when an Active state exists. -/
def Channel.create_handshake_state (ch : Channel) (version : Protocol_Version) :
    CHSResult :=
  if ch.pending.isSome then
    .err ch (.internalError "create_handshake_state called during handshake")
  else if (match ch.active with
           | some a => a.version.is_datagram_protocol != version.is_datagram_protocol
           | none => false : Bool) then
    .err ch (.runtimeError "Active state cannot change protocol family in pending")
  else
    let ch1 := if ch.seqNums.isNone then
                 { ch with seqNums := some initSeqNumbers } else ch
    let st0 := new_handshake_state version
    let st := match ch.active with
              | some a => { st0 with version := a.version }
              | none => st0
    .ok { ch1 with pending := some st } st

/-- Result of a channel operation with no extra value. -/
inductive ChanResult where
  | ok (ch : Channel)
  | err (ch : Channel) (e : TLSError)
deriving DecidableEq, Repr

/-- Modelled from the spec: initiating a handshake (emitting the hello) is
handshake-grammar logic, out of scope (spec section 1); it does not alter
the channel fields observed here. -/
def initiate_handshake (ch : Channel) (_force_full : Bool) : Channel := ch

/-- Embedding of `Channel::renegotiate`: a silent no-op while a handshake is
pending; an error on an inactive connection; otherwise starts a new
handshake at the Active state's version. -/
def Channel.renegotiate (ch : Channel) (force_full : Bool) : ChanResult :=
  if ch.pending.isSome then
    .ok ch
  else
    match ch.active with
    | none => .err ch (.runtimeError "Cannot renegotiate on inactive connection")
    | some a =>
      match ch.create_handshake_state a.version with
      | .ok ch1 _ => .ok (initiate_handshake ch1 force_full)
      | .err ch1 e => .err ch1 e

/-- Embedding of `Channel::change_cipher_spec_reader`: asserts a pending
state with a seen server hello, rejects unknown compression, bumps the read
epoch, flips the side, and installs the new read cipher state from the
pending state's negotiated parameters. -/
def Channel.change_cipher_spec_reader (ch : Channel) (side : Connection_Side) :
    ChanResult :=
  match ch.pending with
  | none => .err ch (.internalError "Assertion Have received server hello failed")
  | some p =>
    match p.serverHello with
    | none => .err ch (.internalError "Assertion Have received server hello failed")
    | some sh =>
      if sh.compression_method ≠ NO_COMPRESSION then
        .err ch (.internalError "Negotiated unknown compression algorithm")
      else
        match ch.seqNums with
        | none => .err ch (.internalError "Assertion Have a sequence numbers object failed")
        | some sn =>
          let flipped := match side with
                         | .CLIENT => Connection_Side.SERVER
                         | .SERVER => Connection_Side.CLIENT
          .ok { ch with
                seqNums := some { sn with readEpoch := sn.readEpoch + 1 },
                readCipher := some { version := p.version, side := flipped,
                                     suite := p.ciphersuite,
                                     keys := p.sessionKeys } }

/-- Embedding of `Channel::change_cipher_spec_writer`: same preconditions as
the reader change, bumps the write epoch and installs the new write cipher
state (side not flipped). -/
def Channel.change_cipher_spec_writer (ch : Channel) (side : Connection_Side) :
    ChanResult :=
  match ch.pending with
  | none => .err ch (.internalError "Assertion Have received server hello failed")
  | some p =>
    match p.serverHello with
    | none => .err ch (.internalError "Assertion Have received server hello failed")
    | some sh =>
      if sh.compression_method ≠ NO_COMPRESSION then
        .err ch (.internalError "Negotiated unknown compression algorithm")
      else
        match ch.seqNums with
        | none => .err ch (.internalError "Assertion Have a sequence numbers object failed")
        | some sn =>
          .ok { ch with
                seqNums := some { sn with writeEpoch := sn.writeEpoch + 1 },
                writeCipher := some { version := p.version, side := side,
                                      suite := p.ciphersuite,
                                      keys := p.sessionKeys } }

/-- Embedding of `Channel::activate_session`: the pending state is promoted
to active and the pending slot cleared. -/
def Channel.activate_session (ch : Channel) : Channel :=
  { ch with active := ch.pending, pending := none }

/-- Embedding of `Channel::write_record` at the granularity the claims need:
rejects a fragment above the maximum size, asserts that some connection
state exists, and emits one record through the emission callback (record
encryption and sequence stamping are the record codec's job, out of
scope). -/
def Channel.write_record (ch : Channel) (recType : Nat) (input : List Nat) :
    Except TLSError Event :=
  if input.length > ch.maxFragment then
    .error (.internalError "Record is larger than allowed fragment size")
  else if ch.pending.isNone && ch.active.isNone then
    .error (.internalError "Assertion Some connection state exists failed")
  else
    .ok (.emit recType input)

/-- Fuelled worker for `chunkList`: the fuel starts at the list length and
strictly bounds the number of chunks, making the recursion structural. -/
def chunkListGo (f : Nat) : Nat → List Nat → List (List Nat)
  | _, [] => []
  | 0, _ :: _ => []
  | fuel + 1, a :: rest =>
    if f = 0 then []
    else (a :: rest).take f :: chunkListGo f fuel ((a :: rest).drop f)

/-- Splits a payload into chunks of at most `f` bytes, following the loop of
`send_record_array`; an `f` of zero (which would loop forever in the source)
yields no chunks. -/
def chunkList (f : Nat) (l : List Nat) : List (List Nat) :=
  chunkListGo f l.length l

/-- Emits each chunk as its own record, propagating the first failure. -/
def Channel.emitChunks (ch : Channel) (recType : Nat) :
    List (List Nat) → Except TLSError (List Event)
  | [] => .ok []
  | c :: cs =>
    match ch.write_record recType c with
    | .error e => .error e
    | .ok ev =>
      match ch.emitChunks recType cs with
      | .error e => .error e
      | .ok evs => .ok (ev :: evs)

/-- Embedding of `Channel::send_record_array`: a zero-length payload emits
nothing; application data under a CBC cipher without an explicit IV first
emits a single desynchronizing byte as its own record; the remainder is
split into records of at most the maximum fragment size. -/
def Channel.send_record_array (ch : Channel) (recType : Nat) (input : List Nat) :
    Except TLSError (List Event) :=
  if input.length = 0 then .ok []
  else if recType = APPLICATION_DATA ∧
          (match ch.writeCipher with
           | some cs => cs.cbc_without_explicit_iv
           | none => false : Bool) = true then
    match ch.write_record recType (input.take 1) with
    | .error e => .error e
    | .ok ev =>
      match ch.emitChunks recType (chunkList ch.maxFragment (input.drop 1)) with
      | .error e => .error e
      | .ok evs => .ok (ev :: evs)
  else
    ch.emitChunks recType (chunkList ch.maxFragment input)

/-- Embedding of `Channel::send_record`. -/
def Channel.send_record (ch : Channel) (recType : Nat) (rec : List Nat) :
    Except TLSError (List Event) :=
  ch.send_record_array recType rec

/-- Embedding of `Channel::send_alert`: a well-formed alert on a not-closed
connection is serialized and sent, any failure of that send being swallowed;
a no-renegotiation alert aborts a pending handshake; a fatal alert removes
the active session from the cache; close-notify or any fatal alert clears
Active, Pending and the write cipher state and marks the connection
closed. -/
def Channel.send_alert (ch : Channel) (alert : Alert) : Channel × List Event :=
  let evs :=
    if alert.is_valid && !ch.closed then
      match ch.send_record ALERT alert.serialize with
      | .ok es => es
      | .error _ => []
    else []
  let ch2 := if alert.type = NO_RENEGOTIATION then { ch with pending := none } else ch
  let ch3 :=
    if alert.fatal then
      match ch2.active with
      | some a =>
        match a.serverHello with
        | some sh => { ch2 with sessionCache := remove_entry ch2.sessionCache sh.session_id }
        | none => ch2
      | none => ch2
    else ch2
  let ch4 :=
    if alert.type = CLOSE_NOTIFY ∨ alert.fatal then
      { ch3 with active := none, pending := none, writeCipher := none, closed := true }
    else ch3
  (ch4, evs)

/-- Embedding of `Channel::send` for application data: rejected on an
inactive connection, otherwise passed to the record-array send path. -/
def Channel.send (ch : Channel) (buf : List Nat) : Except TLSError (List Event) :=
  if !ch.is_active then
    .error (.runtimeError "Data cannot be sent on inactive TLS connection")
  else
    ch.send_record_array APPLICATION_DATA buf

/-- Embedding of `Channel::heartbeat`: sends a heartbeat request when
heartbeat sending was negotiated, and is a no-op otherwise. -/
def Channel.heartbeat (ch : Channel) (payload : List Nat) :
    Except TLSError (List Event) :=
  if ch.heartbeat_sending_allowed then
    ch.send_record HEARTBEAT (Heartbeat_Message.contents
      { isRequest := true, payload := payload })
  else
    .ok []

/-- A decoded TLS record as produced by the record reader: content type,
plaintext payload, advertised version and record sequence.  The byte-level
record codec is out of scope (spec section 4.2); the receive loop is
embedded at record granularity. -/
structure TLSRecord where
  recType : Nat
  payload : List Nat
  version : Protocol_Version
  sequence : Nat
deriving DecidableEq, Repr

/-- One step of the receive loop: continue with the next record, stop
consuming (fatal-alert teardown returns immediately), or fail with the
partially updated channel and the accumulated events. -/
inductive StepResult where
  | cont (ch : Channel) (evs : List Event)
  | stop (ch : Channel) (evs : List Event)
  | fail (ch : Channel) (evs : List Event) (e : TLSError)
deriving DecidableEq, Repr

/-- The handshake/change-cipher-spec branch of `Channel::received_data`:
when no pending state exists, one is created bound to the record's
advertised version and the read sequence window is set to the record's
sequence; the record fragment is then fed to the pending state's reassembly
(draining of completed handshake messages is handshake-protocol logic, out
of scope, and yields no complete message here). -/
def Channel.hsStep (ch : Channel) (r : TLSRecord) : ChanResult :=
  let pre : ChanResult :=
    if ch.pending.isSome then .ok ch
    else
      match ch.create_handshake_state r.version with
      | .ok ch1 _ =>
        match ch1.seqNums with
        | some sn => .ok { ch1 with seqNums := some { sn with readSeq := r.sequence } }
        | none => .err ch1 (.internalError "Assertion Have a sequence numbers object failed")
      | .err ch1 e => .err ch1 e
  match pre with
  | .err c e => .err c e
  | .ok c =>
    match c.pending with
    | some p =>
      let fed := { p with ioInput := p.ioInput ++ [(r.recType, r.payload, r.sequence)] }
      .ok { c with pending := some fed }
    | none => .err c (.internalError "pending state missing after creation")

/-- Dispatch of one decoded record, following the body of the receive loop
in `Channel::received_data` line by line: the no-record sentinel is skipped;
an over-long plaintext is a record-overflow failure; handshake and
change-cipher-spec records go to the handshake machinery; heartbeats are
processed only when negotiated (a request is echoed unless a handshake is
pending, a response is delivered to the application); application data
requires an Active state and non-empty payloads are delivered; alerts abort
a pending handshake on no-renegotiation, are delivered to the application,
reply in kind to close-notify and discard the read cipher state, and on any
other fatal alert remove the cached session, clear all state, mark the
connection closed and stop; any other record type is an unexpected-message
failure. -/
def Channel.processRecord (ch : Channel) (r : TLSRecord) : StepResult :=
  if r.recType = NO_RECORD then .cont ch []
  else if r.payload.length > ch.maxFragment then
    .fail ch [] (.tlsExc RECORD_OVERFLOW "Plaintext record is too large")
  else if r.recType = HANDSHAKE ∨ r.recType = CHANGE_CIPHER_SPEC then
    match ch.hsStep r with
    | .ok ch1 => .cont ch1 []
    | .err ch1 e => .fail ch1 [] e
  else if r.recType = HEARTBEAT ∧ ch.peer_supports_heartbeats = true then
    if ch.active.isNone then
      .fail ch [] (.tlsExc UNEXPECTED_MESSAGE "Heartbeat sent before handshake done")
    else
      match heartbeatParse r.payload with
      | none => .fail ch [] (.decodingError "Unknown heartbeat type")
      | some hb =>
        if hb.isRequest then
          if ch.pending.isNone then
            match ch.send_record HEARTBEAT
                (Heartbeat_Message.contents { isRequest := false, payload := hb.payload }) with
            | .ok es => .cont ch es
            | .error e => .fail ch [] e
          else .cont ch []
        else
          .cont ch [.deliver hb.payload { type := HEARTBEAT_PAYLOAD, fatal := false }]
  else if r.recType = APPLICATION_DATA then
    if ch.active.isNone then
      .fail ch [] (.tlsExc UNEXPECTED_MESSAGE "Application data before handshake done")
    else if r.payload.length > 0 then
      .cont ch [.deliver r.payload Alert.null]
    else
      .cont ch []
  else if r.recType = ALERT then
    match alertParse r.payload with
    | none => .fail ch [] (.decodingError "Bad size for alert message")
    | some a =>
      let ch1 := if a.type = NO_RENEGOTIATION then { ch with pending := none } else ch
      let dv : Event := .deliver [] a
      if a.type = CLOSE_NOTIFY then
        let replied :=
          if !ch1.closed then ch1.send_alert { type := CLOSE_NOTIFY, fatal := false }
          else (ch1, [])
        .cont { replied.1 with readCipher := none } (dv :: replied.2)
      else if a.fatal then
        let ch2 :=
          match ch1.active with
          | some act =>
            match act.serverHello with
            | some sh => { ch1 with sessionCache := remove_entry ch1.sessionCache sh.session_id }
            | none => ch1
          | none => ch1
        .stop { ch2 with closed := true, active := none, pending := none,
                         writeCipher := none, readCipher := none } [dv]
      else
        .cont ch1 [dv]
  else
    .fail ch []
      (.tlsExc UNEXPECTED_MESSAGE
        ("Unexpected record type " ++ toString r.recType ++ " from counterparty"))

/-- Outcome of the receive loop over a list of decoded records: the final
channel, the events produced, and either the records left unconsumed by an
early return or the failure raised. -/
inductive LoopResult where
  | done (ch : Channel) (evs : List Event) (remaining : List TLSRecord)
  | failed (ch : Channel) (evs : List Event) (e : TLSError)
deriving DecidableEq, Repr

/-- The receive loop of `Channel::received_data`: records are processed in
order; a fatal-alert teardown returns immediately with the remaining records
unconsumed; a failure aborts the loop. -/
def Channel.receiveLoop (ch : Channel) : List TLSRecord → LoopResult
  | [] => .done ch [] []
  | r :: rs =>
    match ch.processRecord r with
    | .cont ch1 evs =>
      match ch1.receiveLoop rs with
      | .done c es rem => .done c (evs ++ es) rem
      | .failed c es e => .failed c (evs ++ es) e
    | .stop ch1 evs => .done ch1 evs rs
    | .fail ch1 evs e => .failed ch1 evs e

/-- Overall result of `received_data`: normal completion, or the propagated
failure together with the channel after the best-effort alert. -/
inductive RDResult where
  | ok (ch : Channel) (evs : List Event) (remaining : List TLSRecord)
  | err (e : TLSError) (ch : Channel) (evs : List Event)
deriving DecidableEq, Repr

/-- Embedding of `Channel::received_data` with its catch clauses: on any
failure a best-effort fatal alert with the code of the failure taxonomy is
sent (failures of that send are swallowed inside `send_alert`) and the
original failure is propagated unchanged. -/
def Channel.received_data (ch : Channel) (records : List TLSRecord) : RDResult :=
  match ch.receiveLoop records with
  | .done c evs rem => .ok c evs rem
  | .failed c evs e =>
    let sent := c.send_alert { type := alertCodeOf e, fatal := true }
    .err e sent.1 (evs ++ sent.2)

/-- The inputs handed to the negotiated pseudorandom function by
`key_material_export`; the KDF itself is an external collaborator (spec
section 1), so the derivation is represented by its request: PRF identity,
requested length, master secret and salt. -/
structure KDFRequest where
  prfId : Nat
  length : Nat
  secret : List Nat
  salt : List Nat
deriving DecidableEq, Repr

/-- Embedding of `Channel::key_material_export`: fails without an Active
state; builds the salt as label, client random, server random, then for a
non-empty context a two-byte big-endian length prefix followed by the
context, rejecting contexts longer than a 16-bit length field can hold;
hands the request to the session's negotiated PRF. -/
def Channel.key_material_export (ch : Channel) (label context : List Nat)
    (length : Nat) : Except TLSError KDFRequest :=
  match ch.active with
  | none => .error (.runtimeError "key_material_export connection not active")
  | some st =>
    match st.clientHello, st.serverHello with
    | some chello, some shello =>
      let base := label ++ chello.random ++ shello.random
      if context ≠ [] then
        if context.length > 0xFFFF then
          .error (.runtimeError "key_material_export context is too long")
        else
          .ok { prfId := st.prfId, length := length,
                secret := st.sessionKeys.master_secret,
                salt := base ++ [context.length / 256 % 256, context.length % 256]
                        ++ context }
      else
        .ok { prfId := st.prfId, length := length,
              secret := st.sessionKeys.master_secret, salt := base }
    | _, _ => .error (.internalError "hello message missing in active state")

/-- Ceiling division, used to count emitted fragments. -/
def ceilDiv (a b : Nat) : Nat := (a + b - 1) / b

/-- Concrete fixtures used by witnesses: an ordinary TLS version. -/
def vTLS : Protocol_Version := { datagram := false, ordinal := 2 }

/-- A server hello with heartbeats negotiated and session id `[1]`. -/
def shFix : Server_Hello :=
  { session_id := [1], compression_method := 0, supports_heartbeats := true,
    peer_can_send_heartbeats := true, random := List.replicate 32 0,
    secure_renegotiation := false, renegotiation_info := [] }

/-- A client hello with an all-zero random. -/
def chFix : Client_Hello :=
  { random := List.replicate 32 0, secure_renegotiation := false,
    renegotiation_info := [] }

/-- A completed handshake state over `vTLS`. -/
def stFix : Handshake_State :=
  { version := vTLS, ioIsDatagram := false, ioInput := [],
    serverHello := some shFix, clientHello := some chFix,
    ciphersuite := { id := 5, cbc := true },
    sessionKeys := { master_secret := [9] }, prfId := 3 }

/-- A write cipher state with an explicit IV (no CBC desynchronization). -/
def csFix : Connection_Cipher_State :=
  { version := vTLS, side := .CLIENT, suite := { id := 5, cbc := false },
    keys := { master_secret := [9] } }

/-- A legacy write cipher state: CBC under TLS v1.0, no explicit IV. -/
def csLegacy : Connection_Cipher_State :=
  { version := { datagram := false, ordinal := 1 }, side := .CLIENT,
    suite := { id := 5, cbc := true }, keys := { master_secret := [9] } }

/-- An active, open channel holding session `[1]` in the cache. -/
def chanFix : Channel :=
  { active := some stFix, pending := none, seqNums := some initSeqNumbers,
    readCipher := some csFix, writeCipher := some csFix,
    maxFragment := 100, closed := false, sessionCache := [[1], [2]] }

/-- Every chunk produced by the fuelled worker is at most `f` long. -/
theorem chunkListGo_len_le (f : Nat) (fuel : Nat) (l : List Nat) :
    ∀ c ∈ chunkListGo f fuel l, c.length ≤ f := by
  induction fuel generalizing l with
  | zero =>
    intro c hc
    cases l <;> simp [chunkListGo] at hc
  | succ fuel ih =>
    intro c hc
    cases l with
    | nil => simp [chunkListGo] at hc
    | cons a rest =>
      by_cases hf : f = 0
      · simp [chunkListGo, hf] at hc
      · simp only [chunkListGo, if_neg hf] at hc
        rcases List.mem_cons.mp hc with rfl | hmem
        · simpa using List.length_take_le f (a :: rest)
        · exact ih ((a :: rest).drop f) c hmem

/-- Every chunk produced by `chunkList` is at most `f` long. -/
theorem chunkList_len_le (f : Nat) (l : List Nat) :
    ∀ c ∈ chunkList f l, c.length ≤ f :=
  chunkListGo_len_le f l.length l

/-- With enough fuel, concatenating the chunks recovers the input list. -/
theorem chunkListGo_flatten (f : Nat) (fuel : Nat) (l : List Nat)
    (hfuel : l.length ≤ fuel) (hf : f ≠ 0) :
    (chunkListGo f fuel l).flatten = l := by
  induction fuel generalizing l with
  | zero =>
    have : l = [] := List.length_eq_zero.mp (Nat.le_zero.mp hfuel)
    subst this
    rfl
  | succ fuel ih =>
    cases l with
    | nil => rfl
    | cons a rest =>
      simp only [chunkListGo, if_neg hf, List.flatten_cons]
      rw [ih ((a :: rest).drop f)
            (by simp only [List.length_drop, List.length_cons] at hfuel ⊢; omega)]
      exact List.take_append_drop f (a :: rest)

/-- Concatenating the chunks of `chunkList` recovers the input list. -/
theorem chunkList_flatten (f : Nat) (l : List Nat) (hf : f ≠ 0) :
    (chunkList f l).flatten = l :=
  chunkListGo_flatten f l.length l (Nat.le_refl _) hf

/-- Unfolding step for ceiling division by a positive divisor. -/
theorem ceilDiv_step (n f : Nat) (hf : f ≠ 0) (hn : n ≠ 0) :
    ceilDiv n f = 1 + ceilDiv (n - f) f := by
  unfold ceilDiv
  rcases Nat.lt_or_ge n f with hlt | hge
  · have h1 : n - f = 0 := Nat.sub_eq_zero_of_le (Nat.le_of_lt hlt)
    rw [h1]
    have hfpos : 0 < f := Nat.pos_of_ne_zero hf
    have hnpos : 0 < n := Nat.pos_of_ne_zero hn
    have ha : (n + f - 1) / f = 1 := by
      apply Nat.div_eq_of_lt_le
      · omega
      · omega
    have hb : (0 + f - 1) / f = 0 := by
      apply Nat.div_eq_of_lt
      omega
    rw [ha, hb]
  · have h1 : n + f - 1 = (n - f) + f - 1 + f := by omega
    rw [h1, Nat.add_div_right _ (Nat.pos_of_ne_zero hf)]
    omega

/-- With enough fuel, the number of chunks is the ceiling of length over
fragment size. -/
theorem chunkListGo_length (f : Nat) (fuel : Nat) (l : List Nat)
    (hfuel : l.length ≤ fuel) (hf : f ≠ 0) :
    (chunkListGo f fuel l).length = ceilDiv l.length f := by
  induction fuel generalizing l with
  | zero =>
    have : l = [] := List.length_eq_zero.mp (Nat.le_zero.mp hfuel)
    subst this
    simp [chunkListGo, ceilDiv, Nat.div_eq_of_lt, Nat.sub_lt (Nat.pos_of_ne_zero hf)]
  | succ fuel ih =>
    cases l with
    | nil =>
      simp [chunkListGo, ceilDiv, Nat.div_eq_of_lt, Nat.sub_lt (Nat.pos_of_ne_zero hf)]
    | cons a rest =>
      simp only [chunkListGo, if_neg hf, List.length_cons]
      rw [ih ((a :: rest).drop f)
            (by simp only [List.length_drop, List.length_cons] at hfuel ⊢; omega)]
      rw [List.length_drop]
      simp only [List.length_cons]
      rw [ceilDiv_step (rest.length + 1) f hf (by omega)]
      omega

/-- The number of chunks is the ceiling of length over fragment size. -/
theorem chunkList_length (f : Nat) (l : List Nat) (hf : f ≠ 0) :
    (chunkList f l).length = ceilDiv l.length f :=
  chunkListGo_length f l.length l (Nat.le_refl _) hf

/-- A write whose fragment fits and which has connection state succeeds and
emits exactly that record. -/
theorem write_record_ok (ch : Channel) (t : Nat) (input : List Nat)
    (hlen : input.length ≤ ch.maxFragment)
    (hstate : ch.pending.isSome ∨ ch.active.isSome) :
    ch.write_record t input = .ok (.emit t input) := by
  unfold Channel.write_record
  have h1 : ¬ input.length > ch.maxFragment := by omega
  have h2 : (ch.pending.isNone && ch.active.isNone) = false := by
    rcases hstate with h | h <;>
      simp [Option.isNone_iff_eq_none, Option.isSome_iff_exists] at h ⊢ <;>
      rcases h with ⟨x, hx⟩ <;> simp [hx]
  simp [h1, h2]

/-- Emitting a list of fitting chunks succeeds and maps each chunk to its
record event. -/
theorem emitChunks_ok (ch : Channel) (t : Nat) (cl : List (List Nat))
    (hfit : ∀ c ∈ cl, c.length ≤ ch.maxFragment)
    (hstate : ch.pending.isSome ∨ ch.active.isSome) :
    ch.emitChunks t cl = .ok (cl.map (Event.emit t)) := by
  induction cl with
  | nil => rfl
  | cons c cs ih =>
    have hc : c.length ≤ ch.maxFragment := hfit c (List.mem_cons_self c cs)
    have hcs : ∀ x ∈ cs, x.length ≤ ch.maxFragment :=
      fun x hx => hfit x (List.mem_cons_of_mem c hx)
    unfold Channel.emitChunks
    rw [write_record_ok ch t c hc hstate, ih hcs]
    rfl

/-- The plaintext carried by an observable event. -/
def eventPayload : Event → List Nat
  | .emit _ p => p
  | .deliver p _ => p

/-- Mapping payload extraction over emitted chunk events recovers the chunks. -/
theorem eventPayload_map_emit (t : Nat) (cl : List (List Nat)) :
    (cl.map (Event.emit t)).map eventPayload = cl := by
  induction cl with
  | nil => rfl
  | cons c cs ih => simp [eventPayload, ih]

/-- The fuelled worker maps the empty list to no chunks, at any fuel. -/
theorem chunkListGo_nil (f fuel : Nat) : chunkListGo f fuel [] = [] := by
  cases fuel <;> rfl

/-- A non-empty list no longer than the fragment bound forms a single chunk. -/
theorem chunkList_of_length_le (f : Nat) (l : List Nat)
    (hne : l ≠ []) (hle : l.length ≤ f) : chunkList f l = [l] := by
  cases l with
  | nil => exact absurd rfl hne
  | cons a rest =>
    have hf : f ≠ 0 := by
      simp only [List.length_cons] at hle
      omega
    simp only [chunkList, List.length_cons, chunkListGo, if_neg hf]
    rw [List.take_of_length_le hle, List.drop_eq_nil_of_le hle, chunkListGo_nil]

/-- A small non-application record is sent as exactly one emitted record. -/
theorem send_record_array_small (ch : Channel) (t : Nat) (l : List Nat)
    (hne : l ≠ []) (hnotapp : t ≠ APPLICATION_DATA)
    (hle : l.length ≤ ch.maxFragment)
    (hstate : ch.pending.isSome ∨ ch.active.isSome) :
    ch.send_record_array t l = .ok [.emit t l] := by
  unfold Channel.send_record_array
  have h0 : ¬ l.length = 0 := by simpa [List.length_eq_zero] using hne
  rw [if_neg h0, if_neg (by simp [hnotapp])]
  rw [chunkList_of_length_le ch.maxFragment l hne hle]
  exact emitChunks_ok ch t [l] (by simpa using hle) hstate

/-- C4 helper: full characterization of `send_record_array` for application
data: the desynchronizing byte is emitted first under a legacy CBC write
cipher state, then chunks of at most the maximum fragment, whose
concatenation is the original payload. -/
theorem send_record_array_app (ch : Channel) (input : List Nat)
    (cs : Connection_Cipher_State)
    (hw : ch.writeCipher = some cs)
    (hstate : ch.pending.isSome ∨ ch.active.isSome)
    (hF : 1 ≤ ch.maxFragment)
    (hn : input ≠ []) :
    ch.send_record_array APPLICATION_DATA input =
      .ok (if cs.cbc_without_explicit_iv then
             Event.emit APPLICATION_DATA (input.take 1) ::
               (chunkList ch.maxFragment (input.drop 1)).map (Event.emit APPLICATION_DATA)
           else
             (chunkList ch.maxFragment input).map (Event.emit APPLICATION_DATA)) := by
  unfold Channel.send_record_array
  have h0 : ¬ input.length = 0 := by simpa [List.length_eq_zero] using hn
  rw [if_neg h0]
  have hFne : ch.maxFragment ≠ 0 := by omega
  by_cases hcbc : cs.cbc_without_explicit_iv
  · rw [if_pos (by simp [hw, hcbc])]
    have htake : ch.write_record APPLICATION_DATA (input.take 1) =
        .ok (.emit APPLICATION_DATA (input.take 1)) := by
      apply write_record_ok _ _ _ _ hstate
      calc (input.take 1).length ≤ 1 := by simpa using List.length_take_le 1 input
        _ ≤ ch.maxFragment := hF
    rw [htake]
    have hrest := emitChunks_ok ch APPLICATION_DATA
      (chunkList ch.maxFragment (input.drop 1))
      (chunkList_len_le ch.maxFragment (input.drop 1)) hstate
    rw [hrest]
    simp [hcbc]
  · rw [if_neg (by simp [hw, hcbc])]
    rw [emitChunks_ok ch APPLICATION_DATA (chunkList ch.maxFragment input)
          (chunkList_len_le ch.maxFragment input) hstate]
    simp [hcbc]

/-- The session cache after a fatal-alert teardown: the active session's
identifier is removed when an Active state with a server hello exists. -/
def cacheAfterFatal (ch : Channel) : List (List Nat) :=
  match ch.active with
  | some st =>
    match st.serverHello with
    | some sh => remove_entry ch.sessionCache sh.session_id
    | none => ch.sessionCache
  | none => ch.sessionCache

/-- C1: a received alert record parsing to a fatal alert other than
close-notify triggers full teardown: the active session is removed from the
session cache when an Active state with a server hello exists, Active,
Pending and both cipher states are cleared, the closed flag is set, the
loop returns immediately leaving the remaining records unconsumed, and any
subsequent application-data send fails. -/
theorem C1_fatal_alert_teardown (ch : Channel) (r : TLSRecord)
    (rest : List TLSRecord) (a : Alert)
    (htype : r.recType = ALERT)
    (hparse : alertParse r.payload = some a)
    (hfatal : a.fatal = true)
    (hnotcn : a.type ≠ CLOSE_NOTIFY)
    (hsize : r.payload.length ≤ ch.maxFragment) :
    ∃ ch', ch.received_data (r :: rest) = .ok ch' [Event.deliver [] a] rest ∧
      ch'.active = none ∧ ch'.pending = none ∧
      ch'.readCipher = none ∧ ch'.writeCipher = none ∧
      ch'.closed = true ∧
      ch'.seqNums = ch.seqNums ∧ ch'.maxFragment = ch.maxFragment ∧
      ch'.sessionCache = cacheAfterFatal ch ∧
      (∀ buf, ch'.send buf =
        .error (.runtimeError "Data cannot be sent on inactive TLS connection")) := by
  have hstep : ch.processRecord r = .stop
      { active := none, pending := none, seqNums := ch.seqNums,
        readCipher := none, writeCipher := none, maxFragment := ch.maxFragment,
        closed := true, sessionCache := cacheAfterFatal ch }
      [Event.deliver [] a] := by
    unfold Channel.processRecord
    rw [htype]
    rw [if_neg (by unfold ALERT NO_RECORD; omega),
        if_neg (by omega),
        if_neg (by unfold ALERT HANDSHAKE CHANGE_CIPHER_SPEC; omega),
        if_neg (by unfold ALERT HEARTBEAT; simp),
        if_neg (by unfold ALERT APPLICATION_DATA; omega),
        if_pos rfl]
    rw [hparse]
    dsimp only
    rw [if_neg hnotcn, if_pos hfatal]
    unfold cacheAfterFatal
    by_cases hnr : a.type = NO_RENEGOTIATION
    · rw [if_pos hnr]
      dsimp only
      rcases hA : ch.active with _ | st
      · rfl
      · dsimp only
        rcases hsh : st.serverHello with _ | sh
        · rfl
        · rfl
    · rw [if_neg hnr]
      rcases hA : ch.active with _ | st
      · rfl
      · dsimp only
        rcases hsh : st.serverHello with _ | sh
        · rfl
        · rfl
  refine ⟨{ active := none, pending := none, seqNums := ch.seqNums,
            readCipher := none, writeCipher := none, maxFragment := ch.maxFragment,
            closed := true, sessionCache := cacheAfterFatal ch },
          ?_, rfl, rfl, rfl, rfl, rfl, rfl, rfl, rfl, fun buf => rfl⟩
  unfold Channel.received_data Channel.receiveLoop
  rw [hstep]

/-- Fixture: a fatal handshake-failure alert record. -/
def fatalRecFix : TLSRecord :=
  { recType := 21, payload := [2, 40], version := vTLS, sequence := 0 }

/-- Fixture: an application-data record. -/
def appRecFix : TLSRecord :=
  { recType := 23, payload := [7, 8], version := vTLS, sequence := 1 }

/-- C1 witness: receiving a fatal handshake-failure alert on a live channel
with a handshake in flight tears everything down, leaves the trailing
record unconsumed, and blocks subsequent sends. -/
theorem C1_fatal_alert_teardown_witness :
    alertParse fatalRecFix.payload = some { type := 40, fatal := true } ∧
    (∃ ch', Channel.received_data { chanFix with pending := some stFix }
        [fatalRecFix, appRecFix] =
        .ok ch' [Event.deliver [] { type := 40, fatal := true }] [appRecFix] ∧
      ch'.active = none ∧ ch'.pending = none ∧
      ch'.readCipher = none ∧ ch'.writeCipher = none ∧
      ch'.closed = true ∧
      ch'.seqNums = Channel.seqNums { chanFix with pending := some stFix } ∧
      ch'.maxFragment = Channel.maxFragment { chanFix with pending := some stFix } ∧
      ch'.sessionCache = cacheAfterFatal { chanFix with pending := some stFix } ∧
      (∀ buf, ch'.send buf =
        .error (.runtimeError "Data cannot be sent on inactive TLS connection"))) :=
  ⟨rfl, C1_fatal_alert_teardown { chanFix with pending := some stFix } fatalRecFix
      [appRecFix] { type := 40, fatal := true } rfl rfl rfl (by decide) (by decide)⟩

/-- C2: calling `create_handshake_state` while a Pending handshake state
exists fails with the internal (protocol-usage) error and returns with the
channel exactly as it was: the error result carries the unmodified channel,
so Pending, Active, the sequence-numbering object, both cipher states and
the closed flag are unchanged. -/
theorem C2_create_handshake_state_while_pending (ch : Channel)
    (v : Protocol_Version) (hp : ch.pending.isSome = true) :
    ch.create_handshake_state v =
      .err ch (.internalError "create_handshake_state called during handshake") := by
  unfold Channel.create_handshake_state
  simp [hp]

/-- C2 witness: a second handshake start on a channel with a pending
handshake fails without touching the channel. -/
theorem C2_create_handshake_state_while_pending_witness :
    Channel.create_handshake_state { chanFix with pending := some stFix } vTLS =
      .err { chanFix with pending := some stFix }
        (.internalError "create_handshake_state called during handshake") :=
  C2_create_handshake_state_while_pending { chanFix with pending := some stFix } vTLS rfl

/-- C10: with an Active state present, `create_handshake_state` overrides
the new Pending state's version with the Active state's version while the
requested version still selects the transport machinery; without an Active
state, the requested version is kept; a transport-family mismatch against
the Active state is rejected. -/
theorem C10_pending_version_inheritance (ch : Channel) (v : Protocol_Version)
    (a : Handshake_State)
    (hp : ch.pending = none)
    (ha : ch.active = some a)
    (hfam : a.version.is_datagram_protocol = v.is_datagram_protocol) :
    (∃ ch' st, ch.create_handshake_state v = .ok ch' st ∧
      st.version = a.version ∧ st.ioIsDatagram = v.is_datagram_protocol ∧
      ch'.pending = some st ∧ ch'.active = ch.active) ∧
    (∀ (ch2 : Channel) (v2 : Protocol_Version), ch2.pending = none → ch2.active = none →
      ∃ ch2' st2, ch2.create_handshake_state v2 = .ok ch2' st2 ∧
        st2.version = v2 ∧ st2.ioIsDatagram = v2.is_datagram_protocol) ∧
    (∀ (ch3 : Channel) (v3 : Protocol_Version) (a3 : Handshake_State),
      ch3.pending = none → ch3.active = some a3 →
      a3.version.is_datagram_protocol ≠ v3.is_datagram_protocol →
      ch3.create_handshake_state v3 =
        .err ch3 (.runtimeError "Active state cannot change protocol family in pending")) := by
  refine ⟨?_, ?_, ?_⟩
  · have key : ch.create_handshake_state v =
        .ok { (if ch.seqNums.isNone then { ch with seqNums := some initSeqNumbers } else ch) with
              pending := some { new_handshake_state v with version := a.version } }
           { new_handshake_state v with version := a.version } := by
      unfold Channel.create_handshake_state
      rw [if_neg (by simp [hp]), if_neg (by rw [ha]; simp [hfam])]
      dsimp only
      rw [ha]
    refine ⟨_, _, key, rfl, rfl, rfl, ?_⟩
    by_cases hsq : ch.seqNums.isNone <;> simp [hsq]
  · intro ch2 v2 hp2 ha2
    have key : ch2.create_handshake_state v2 =
        .ok { (if ch2.seqNums.isNone then { ch2 with seqNums := some initSeqNumbers } else ch2) with
              pending := some (new_handshake_state v2) } (new_handshake_state v2) := by
      unfold Channel.create_handshake_state
      rw [if_neg (by simp [hp2]), if_neg (by rw [ha2]; simp)]
      dsimp only
      rw [ha2]
    exact ⟨_, _, key, rfl, rfl⟩
  · intro ch3 v3 a3 hp3 ha3 hfam3
    unfold Channel.create_handshake_state
    rw [if_neg (by simp [hp3]), if_pos (by rw [ha3]; simp [bne_iff_ne]; exact hfam3)]

/-- C10 witness: with an Active state at version `vTLS`, requesting a newer
version of the same family yields a pending state pinned to `vTLS`. -/
theorem C10_pending_version_inheritance_witness :
    ∃ ch' st, Channel.create_handshake_state chanFix { datagram := false, ordinal := 7 } =
        .ok ch' st ∧
      st.version = stFix.version ∧
      st.ioIsDatagram = Protocol_Version.is_datagram_protocol { datagram := false, ordinal := 7 } ∧
      ch'.pending = some st ∧ ch'.active = chanFix.active :=
  (C10_pending_version_inheritance chanFix { datagram := false, ordinal := 7 } stFix
      rfl rfl rfl).1

/-- C5 counterexample: on a channel with neither a Pending nor an Active
state, `renegotiate` raises an error rather than being a silent no-op, so
renegotiation is not a silent no-op "in every other case". -/
theorem C5_renegotiate_counterexample :
    Channel.renegotiate Channel.init false =
      .err Channel.init (.runtimeError "Cannot renegotiate on inactive connection") := by
  rfl

/-- C5 (amended): `renegotiate` is a silent no-op exactly while a Pending
handshake exists; with no Pending and no Active state it fails with a
runtime error ("cannot renegotiate on inactive connection") instead of
being a no-op; renegotiation proceeds only when Active exists and no
Pending is in flight. -/
theorem C5_renegotiate_cases (ch : Channel) (force : Bool) :
    (ch.pending.isSome = true → ch.renegotiate force = .ok ch) ∧
    (ch.pending = none → ch.active = none →
      ch.renegotiate force =
        .err ch (.runtimeError "Cannot renegotiate on inactive connection")) := by
  constructor
  · intro h
    unfold Channel.renegotiate
    rw [if_pos h]
  · intro h1 h2
    unfold Channel.renegotiate
    rw [if_neg (by simp [h1])]
    rw [h2]

/-- C5 witness: a channel mid-handshake ignores `renegotiate`; a fresh
channel rejects it with an error. -/
theorem C5_renegotiate_cases_witness :
    Channel.renegotiate { chanFix with pending := some stFix } false =
      .ok { chanFix with pending := some stFix } ∧
    Channel.renegotiate Channel.init false =
      .err Channel.init (.runtimeError "Cannot renegotiate on inactive connection") :=
  ⟨(C5_renegotiate_cases { chanFix with pending := some stFix } false).1 rfl,
   (C5_renegotiate_cases Channel.init false).2 rfl rfl⟩

/-- C8: a cipher-spec change for either direction requires a Pending state
whose server hello has been seen (failing with a precondition error
otherwise); under that precondition (and the negotiated null compression,
with the sequence-numbering object present) the reader change bumps exactly
the read epoch by one and installs the read cipher state built from the
Pending state's version, flipped side, cipher suite and session keys, and
the writer change bumps exactly the write epoch and installs the write
cipher state likewise. -/
theorem C8_change_cipher_spec (ch : Channel) (side : Connection_Side)
    (p : Handshake_State) (sh : Server_Hello) (sn : Connection_Sequence_Numbers)
    (hp : ch.pending = some p)
    (hsh : p.serverHello = some sh)
    (hcomp : sh.compression_method = NO_COMPRESSION)
    (hsn : ch.seqNums = some sn) :
    (ch.change_cipher_spec_reader side = .ok { ch with
        seqNums := some { sn with readEpoch := sn.readEpoch + 1 },
        readCipher := some { version := p.version,
                             side := (match side with
                                      | .CLIENT => Connection_Side.SERVER
                                      | .SERVER => Connection_Side.CLIENT),
                             suite := p.ciphersuite, keys := p.sessionKeys } }) ∧
    (ch.change_cipher_spec_writer side = .ok { ch with
        seqNums := some { sn with writeEpoch := sn.writeEpoch + 1 },
        writeCipher := some { version := p.version, side := side,
                              suite := p.ciphersuite, keys := p.sessionKeys } }) ∧
    (∀ (ch2 : Channel) (side2 : Connection_Side), ch2.pending = none →
       ch2.change_cipher_spec_reader side2 =
         .err ch2 (.internalError "Assertion Have received server hello failed") ∧
       ch2.change_cipher_spec_writer side2 =
         .err ch2 (.internalError "Assertion Have received server hello failed")) ∧
    (∀ (ch3 : Channel) (side3 : Connection_Side) (p3 : Handshake_State),
       ch3.pending = some p3 → p3.serverHello = none →
       ch3.change_cipher_spec_reader side3 =
         .err ch3 (.internalError "Assertion Have received server hello failed") ∧
       ch3.change_cipher_spec_writer side3 =
         .err ch3 (.internalError "Assertion Have received server hello failed")) := by
  refine ⟨?_, ?_, ?_, ?_⟩
  · unfold Channel.change_cipher_spec_reader
    rw [hp]
    dsimp only
    rw [hsh]
    dsimp only
    rw [if_neg (by simp [hcomp]), hsn]
  · unfold Channel.change_cipher_spec_writer
    rw [hp]
    dsimp only
    rw [hsh]
    dsimp only
    rw [if_neg (by simp [hcomp]), hsn]
  · intro ch2 side2 hp2
    constructor
    · unfold Channel.change_cipher_spec_reader
      rw [hp2]
    · unfold Channel.change_cipher_spec_writer
      rw [hp2]
  · intro ch3 side3 p3 hp3 hsh3
    constructor
    · unfold Channel.change_cipher_spec_reader
      rw [hp3]
      dsimp only
      rw [hsh3]
    · unfold Channel.change_cipher_spec_writer
      rw [hp3]
      dsimp only
      rw [hsh3]

/-- C8 witness: on a channel with a pending handshake that has seen the
server hello, the reader change bumps the read epoch once and installs the
read cipher state from the pending state's parameters. -/
theorem C8_change_cipher_spec_witness :
    Channel.change_cipher_spec_reader { chanFix with pending := some stFix }
        Connection_Side.CLIENT =
      .ok { { chanFix with pending := some stFix } with
            seqNums := some { initSeqNumbers with readEpoch := initSeqNumbers.readEpoch + 1 },
            readCipher := some { version := stFix.version, side := Connection_Side.SERVER,
                                 suite := stFix.ciphersuite, keys := stFix.sessionKeys } } :=
  (C8_change_cipher_spec { chanFix with pending := some stFix } Connection_Side.CLIENT
      stFix shFix initSeqNumbers rfl rfl rfl rfl).1

/-- C4 counterexample: under a legacy CBC write cipher with maximum fragment
5, sending the single byte `[9]` emits exactly one record (the
desynchronizing byte already carries the whole payload), not the
`ceil(1/5) + 1 = 2` records the claim predicts. -/
theorem C4_fragmentation_counterexample :
    Channel.send_record_array { chanFix with writeCipher := some csLegacy, maxFragment := 5 }
        APPLICATION_DATA [9] = .ok [Event.emit APPLICATION_DATA [9]] ∧
    csLegacy.cbc_without_explicit_iv = true ∧
    ([Event.emit APPLICATION_DATA [9]] : List Event).length ≠ ceilDiv 1 5 + 1 := by
  refine ⟨rfl, rfl, by decide⟩

/-- C4 (amended): sending a non-empty application-data payload of N bytes
with effective maximum fragment F emits `ceil(N/F)` records when the write
cipher has an explicit IV; under a legacy CBC write cipher the
desynchronizing byte is emitted first as its own record carrying exactly
the first payload byte, for a total of `1 + ceil((N-1)/F)` records (one
more than `ceil(N/F)` only when `N` is not congruent to 1 modulo `F`);
every emitted record's plaintext is at most F bytes, and the emitted
plaintexts concatenated in order equal the original payload. -/
theorem C4_fragmentation (ch : Channel) (input : List Nat)
    (cs : Connection_Cipher_State)
    (hw : ch.writeCipher = some cs)
    (hstate : ch.pending.isSome ∨ ch.active.isSome)
    (hF : 1 ≤ ch.maxFragment)
    (hn : input ≠ []) :
    ∃ evs, ch.send_record_array APPLICATION_DATA input = .ok evs ∧
      evs.length = (if cs.cbc_without_explicit_iv then
                      1 + ceilDiv (input.length - 1) ch.maxFragment
                    else ceilDiv input.length ch.maxFragment) ∧
      (∀ ev ∈ evs, ∃ c, ev = Event.emit APPLICATION_DATA c ∧
        c.length ≤ ch.maxFragment) ∧
      (evs.map eventPayload).flatten = input ∧
      (cs.cbc_without_explicit_iv = true →
        evs.head? = some (Event.emit APPLICATION_DATA (input.take 1)) ∧
        (input.take 1).length = 1) := by
  have hFne : ch.maxFragment ≠ 0 := by omega
  have happ := send_record_array_app ch input cs hw hstate hF hn
  by_cases hcbc : cs.cbc_without_explicit_iv
  · rw [if_pos hcbc] at happ
    refine ⟨_, happ, ?_, ?_, ?_, ?_⟩
    · rw [if_pos hcbc]
      simp only [List.length_cons, List.length_map]
      rw [chunkList_length ch.maxFragment (input.drop 1) hFne, List.length_drop]
      omega
    · intro ev hev
      rcases List.mem_cons.mp hev with rfl | hmem
      · refine ⟨input.take 1, rfl, ?_⟩
        calc (input.take 1).length ≤ 1 := by simpa using List.length_take_le 1 input
          _ ≤ ch.maxFragment := hF
      · rcases List.mem_map.mp hmem with ⟨c, hc, rfl⟩
        exact ⟨c, rfl, chunkList_len_le ch.maxFragment (input.drop 1) c hc⟩
    · simp only [List.map_cons, eventPayload, eventPayload_map_emit, List.flatten_cons]
      rw [chunkList_flatten ch.maxFragment (input.drop 1) hFne]
      exact List.take_append_drop 1 input
    · intro _
      refine ⟨rfl, ?_⟩
      cases input with
      | nil => exact absurd rfl hn
      | cons a t => simp
  · rw [if_neg hcbc] at happ
    refine ⟨_, happ, ?_, ?_, ?_, ?_⟩
    · rw [if_neg hcbc]
      rw [List.length_map, chunkList_length ch.maxFragment input hFne]
    · intro ev hev
      rcases List.mem_map.mp hev with ⟨c, hc, rfl⟩
      exact ⟨c, rfl, chunkList_len_le ch.maxFragment input c hc⟩
    · rw [eventPayload_map_emit]
      exact chunkList_flatten ch.maxFragment input hFne
    · intro hcontra
      exact absurd hcontra hcbc

/-- C4 witness: six bytes through a non-legacy cipher at fragment size 5
yield two records that concatenate back to the payload. -/
theorem C4_fragmentation_witness :
    ∃ evs, Channel.send_record_array { chanFix with maxFragment := 5 }
        APPLICATION_DATA [1, 2, 3, 4, 5, 6] = .ok evs ∧
      evs.length = (if csFix.cbc_without_explicit_iv then
                      1 + ceilDiv ([1, 2, 3, 4, 5, 6].length - 1) 5
                    else ceilDiv [1, 2, 3, 4, 5, 6].length 5) ∧
      (∀ ev ∈ evs, ∃ c, ev = Event.emit APPLICATION_DATA c ∧ c.length ≤ 5) ∧
      (evs.map eventPayload).flatten = [1, 2, 3, 4, 5, 6] ∧
      (csFix.cbc_without_explicit_iv = true →
        evs.head? = some (Event.emit APPLICATION_DATA ([1, 2, 3, 4, 5, 6].take 1)) ∧
        ([1, 2, 3, 4, 5, 6].take 1).length = 1) :=
  C4_fragmentation { chanFix with maxFragment := 5 } [1, 2, 3, 4, 5, 6] csFix
    rfl (Or.inr rfl) (by decide) (by decide)

/-- Fixture: a close-notify alert record (warning level, type 0). -/
def cnRecFix : TLSRecord :=
  { recType := 21, payload := [1, 0], version := vTLS, sequence := 0 }

/-- C3 counterexample: receiving close-notify on an open active channel does
not leave the write side usable: the in-kind reply runs the alert-send
teardown, so afterwards the write cipher state is discarded, Active and
Pending are cleared and the connection is marked closed (the session cache,
however, is untouched). -/
theorem C3_close_notify_counterexample :
    Channel.received_data chanFix [cnRecFix] =
      .ok { active := none, pending := none, seqNums := some initSeqNumbers,
            readCipher := none, writeCipher := none, maxFragment := 100,
            closed := true, sessionCache := [[1], [2]] }
        [Event.deliver [] { type := 0, fatal := false }, Event.emit 21 [1, 0]] [] ∧
    chanFix.writeCipher = some csFix ∧ chanFix.closed = false :=
  ⟨rfl, rfl, rfl⟩

/-- C3 (amended): a close-notify received on a not-yet-closed connection is
delivered, replied to in kind, and the receive path then discards the read
cipher state; but the in-kind reply itself (through the alert-send path)
also clears Active, Pending and the write cipher state and marks the
connection closed — only the session cache survives, and the write side is
usable solely to emit the reply.  On an already-closed connection no reply
is sent and only the read cipher state is discarded. -/
theorem C3_close_notify_behavior (ch : Channel) (r : TLSRecord)
    (st : Handshake_State)
    (htype : r.recType = ALERT)
    (hpay : r.payload = [1, CLOSE_NOTIFY])
    (hF : 2 ≤ ch.maxFragment)
    (hopen : ch.closed = false)
    (hact : ch.active = some st) :
    (∃ ch', ch.received_data [r] = .ok ch'
        [Event.deliver [] { type := CLOSE_NOTIFY, fatal := false },
         Event.emit ALERT (Alert.serialize { type := CLOSE_NOTIFY, fatal := false })] [] ∧
      ch'.readCipher = none ∧ ch'.writeCipher = none ∧ ch'.active = none ∧
      ch'.pending = none ∧ ch'.closed = true ∧
      ch'.sessionCache = ch.sessionCache ∧ ch'.seqNums = ch.seqNums) ∧
    (∀ ch2 : Channel, ch2.closed = true → r.payload.length ≤ ch2.maxFragment →
      ch2.processRecord r = .cont { ch2 with readCipher := none }
        [Event.deliver [] { type := CLOSE_NOTIFY, fatal := false }]) := by
  have hsize : r.payload.length ≤ ch.maxFragment := by
    rw [hpay]
    simpa using hF
  constructor
  · have hsr : ch.send_record ALERT
        (Alert.serialize { type := CLOSE_NOTIFY, fatal := false }) =
        .ok [Event.emit ALERT (Alert.serialize { type := CLOSE_NOTIFY, fatal := false })] := by
      apply send_record_array_small ch ALERT _ (by decide) (by decide)
      · simpa [Alert.serialize] using hF
      · exact Or.inr (by rw [hact]; rfl)
    have halert : ch.send_alert { type := CLOSE_NOTIFY, fatal := false } =
        ({ ch with active := none, pending := none, writeCipher := none, closed := true },
         [Event.emit ALERT (Alert.serialize { type := CLOSE_NOTIFY, fatal := false })]) := by
      unfold Channel.send_alert
      rw [hopen]
      rw [if_pos (by decide), hsr]
      rw [if_neg (by decide)]
      dsimp only
      rw [if_pos (Or.inl rfl)]
      rfl
    have hstep : ch.processRecord r = .cont
        { active := none, pending := none, seqNums := ch.seqNums,
          readCipher := none, writeCipher := none, maxFragment := ch.maxFragment,
          closed := true, sessionCache := ch.sessionCache }
        [Event.deliver [] { type := CLOSE_NOTIFY, fatal := false },
         Event.emit ALERT (Alert.serialize { type := CLOSE_NOTIFY, fatal := false })] := by
      unfold Channel.processRecord
      rw [htype]
      rw [if_neg (by unfold ALERT NO_RECORD; omega),
          if_neg (by omega),
          if_neg (by unfold ALERT HANDSHAKE CHANGE_CIPHER_SPEC; omega),
          if_neg (by unfold ALERT HEARTBEAT; simp),
          if_neg (by unfold ALERT APPLICATION_DATA; omega),
          if_pos rfl]
      rw [hpay]
      dsimp only [alertParse]
      rw [if_pos rfl]
      rw [if_neg (show ¬ CLOSE_NOTIFY = NO_RENEGOTIATION by decide)]
      rw [hopen]
      rw [show (decide (1 = 2)) = false from rfl]
      rw [if_pos (show (!false) = true from rfl)]
      rw [halert]
    refine ⟨{ active := none, pending := none, seqNums := ch.seqNums,
              readCipher := none, writeCipher := none, maxFragment := ch.maxFragment,
              closed := true, sessionCache := ch.sessionCache },
            ?_, rfl, rfl, rfl, rfl, rfl, rfl, rfl⟩
    unfold Channel.received_data Channel.receiveLoop
    rw [hstep]
    rfl
  · intro ch2 hcl2 hsize2
    unfold Channel.processRecord
    rw [htype]
    rw [if_neg (by unfold ALERT NO_RECORD; omega),
        if_neg (by omega),
        if_neg (by unfold ALERT HANDSHAKE CHANGE_CIPHER_SPEC; omega),
        if_neg (by unfold ALERT HEARTBEAT; simp),
        if_neg (by unfold ALERT APPLICATION_DATA; omega),
        if_pos rfl]
    rw [hpay]
    dsimp only [alertParse]
    rw [if_pos rfl]
    rw [if_neg (show ¬ CLOSE_NOTIFY = NO_RENEGOTIATION by decide)]
    rw [if_neg (show ¬ ((!ch2.closed) = true) by rw [hcl2]; decide)]
    rfl

/-- C3 witness for the amended behavior, on the concrete open channel. -/
theorem C3_close_notify_behavior_witness :
    (∃ ch', Channel.received_data chanFix [cnRecFix] = .ok ch'
        [Event.deliver [] { type := CLOSE_NOTIFY, fatal := false },
         Event.emit ALERT (Alert.serialize { type := CLOSE_NOTIFY, fatal := false })] [] ∧
      ch'.readCipher = none ∧ ch'.writeCipher = none ∧ ch'.active = none ∧
      ch'.pending = none ∧ ch'.closed = true ∧
      ch'.sessionCache = chanFix.sessionCache ∧ ch'.seqNums = chanFix.seqNums) ∧
    (∀ ch2 : Channel, ch2.closed = true → cnRecFix.payload.length ≤ ch2.maxFragment →
      ch2.processRecord cnRecFix = .cont { ch2 with readCipher := none }
        [Event.deliver [] { type := CLOSE_NOTIFY, fatal := false }]) :=
  C3_close_notify_behavior chanFix cnRecFix stFix rfl rfl (by decide) rfl rfl

/-- C6 counterexample: on a fresh channel (heartbeats not negotiated) a
heartbeat record is not ignored: it raises an unexpected-message failure,
which also triggers the best-effort alert path and marks the connection
closed. -/
theorem C6_heartbeat_counterexample :
    Channel.peer_supports_heartbeats Channel.init = false ∧
    Channel.received_data Channel.init
        [{ recType := 24, payload := [1, 5], version := vTLS, sequence := 0 }] =
      .err (.tlsExc UNEXPECTED_MESSAGE "Unexpected record type 24 from counterparty")
        { Channel.init with closed := true } [] :=
  ⟨rfl, rfl⟩

/-- C6 (amended): a heartbeat record is an unexpected-message protocol
failure when heartbeats were not negotiated; when negotiated (which
requires an Active state with a server hello advertising heartbeat
support), a heartbeat request is echoed back as a response record only when
no Pending handshake exists and is silently ignored during a handshake,
while a heartbeat response is delivered to the application callback tagged
as a heartbeat payload regardless of a Pending handshake. -/
theorem C6_heartbeat_behavior (ch : Channel) (r : TLSRecord)
    (st : Handshake_State) (sh : Server_Hello) (p : List Nat)
    (hact : ch.active = some st)
    (hsh : st.serverHello = some sh)
    (hneg : sh.supports_heartbeats = true)
    (hnopend : ch.pending = none)
    (htype : r.recType = HEARTBEAT)
    (hpay : r.payload = 1 :: p)
    (hfit : p.length + 1 ≤ ch.maxFragment) :
    ch.processRecord r = .cont ch
      [Event.emit HEARTBEAT (Heartbeat_Message.contents
        { isRequest := false, payload := p })] ∧
    (∀ (ch2 : Channel) (r2 : TLSRecord), ch2.peer_supports_heartbeats = false →
      r2.recType = HEARTBEAT → r2.payload.length ≤ ch2.maxFragment →
      ch2.processRecord r2 = .fail ch2 []
        (.tlsExc UNEXPECTED_MESSAGE
          ("Unexpected record type " ++ toString r2.recType ++ " from counterparty"))) ∧
    (∀ (ch3 : Channel) (r3 : TLSRecord) (q : List Nat),
      ch3.peer_supports_heartbeats = true → ch3.pending.isSome = true →
      r3.recType = HEARTBEAT → r3.payload = 1 :: q →
      r3.payload.length ≤ ch3.maxFragment →
      ch3.processRecord r3 = .cont ch3 []) ∧
    (∀ (ch4 : Channel) (r4 : TLSRecord) (q : List Nat),
      ch4.peer_supports_heartbeats = true →
      r4.recType = HEARTBEAT → r4.payload = 2 :: q →
      r4.payload.length ≤ ch4.maxFragment →
      ch4.processRecord r4 = .cont ch4
        [Event.deliver q { type := HEARTBEAT_PAYLOAD, fatal := false }]) := by
  have hsupp : ch.peer_supports_heartbeats = true := by
    unfold Channel.peer_supports_heartbeats
    rw [hact]
    dsimp only
    rw [hsh]
    dsimp only
    exact hneg
  refine ⟨?_, ?_, ?_, ?_⟩
  · have hsize : r.payload.length ≤ ch.maxFragment := by
      rw [hpay]
      simpa using hfit
    have hecho : ch.send_record HEARTBEAT
        (Heartbeat_Message.contents { isRequest := false, payload := p }) =
        .ok [Event.emit HEARTBEAT (Heartbeat_Message.contents
          { isRequest := false, payload := p })] := by
      apply send_record_array_small ch HEARTBEAT _ (by simp [Heartbeat_Message.contents])
        (by decide)
      · simpa [Heartbeat_Message.contents] using hfit
      · exact Or.inr (by rw [hact]; rfl)
    unfold Channel.processRecord
    rw [htype]
    rw [if_neg (by unfold HEARTBEAT NO_RECORD; omega),
        if_neg (by omega),
        if_neg (by unfold HEARTBEAT HANDSHAKE CHANGE_CIPHER_SPEC; omega),
        if_pos ⟨rfl, hsupp⟩]
    rw [if_neg (by simp [hact])]
    rw [hpay]
    dsimp only [heartbeatParse]
    rw [if_pos rfl, if_pos (by rw [hnopend]; rfl)]
    rw [hecho]
  · intro ch2 r2 hns ht2 hs2
    unfold Channel.processRecord
    rw [if_neg (by rw [ht2]; unfold HEARTBEAT NO_RECORD; omega),
        if_neg (by omega),
        if_neg (by rw [ht2]; unfold HEARTBEAT HANDSHAKE CHANGE_CIPHER_SPEC; omega),
        if_neg (by simp [hns]),
        if_neg (by rw [ht2]; unfold HEARTBEAT APPLICATION_DATA; omega),
        if_neg (by rw [ht2]; unfold HEARTBEAT ALERT; omega)]
  · intro ch3 r3 q hps3 hpend3 ht3 hp3 hs3
    have hA : ch3.active.isNone = false := by
      unfold Channel.peer_supports_heartbeats at hps3
      rcases hA2 : ch3.active with _ | st3
      · rw [hA2] at hps3
        simp at hps3
      · rfl
    unfold Channel.processRecord
    rw [ht3]
    rw [if_neg (by unfold HEARTBEAT NO_RECORD; omega),
        if_neg (by omega),
        if_neg (by unfold HEARTBEAT HANDSHAKE CHANGE_CIPHER_SPEC; omega),
        if_pos ⟨rfl, hps3⟩]
    rw [if_neg (by rw [hA]; decide)]
    rw [hp3]
    dsimp only [heartbeatParse]
    have hPn : ch3.pending.isNone = false := by
      rcases hP : ch3.pending with _ | x
      · rw [hP] at hpend3
        simp at hpend3
      · rfl
    rw [if_pos rfl, if_neg (by rw [hPn]; decide)]
  · intro ch4 r4 q hps4 ht4 hp4 hs4
    have hA : ch4.active.isNone = false := by
      unfold Channel.peer_supports_heartbeats at hps4
      rcases hA2 : ch4.active with _ | st4
      · rw [hA2] at hps4
        simp at hps4
      · rfl
    unfold Channel.processRecord
    rw [ht4]
    rw [if_neg (by unfold HEARTBEAT NO_RECORD; omega),
        if_neg (by omega),
        if_neg (by unfold HEARTBEAT HANDSHAKE CHANGE_CIPHER_SPEC; omega),
        if_pos ⟨rfl, hps4⟩]
    rw [if_neg (by rw [hA]; decide)]
    rw [hp4]
    dsimp only [heartbeatParse]
    rw [if_neg (by decide)]

/-- C6 witness: on the active heartbeat-negotiated channel, a request is
echoed; the degenerate scenarios of the other conjuncts are instantiated by
the same application. -/
theorem C6_heartbeat_behavior_witness :
    Channel.processRecord chanFix
        { recType := 24, payload := [1, 5, 6], version := vTLS, sequence := 0 } =
      .cont chanFix
        [Event.emit HEARTBEAT (Heartbeat_Message.contents
          { isRequest := false, payload := [5, 6] })] :=
  (C6_heartbeat_behavior chanFix
      { recType := 24, payload := [1, 5, 6], version := vTLS, sequence := 0 }
      stFix shFix [5, 6] rfl rfl rfl rfl rfl rfl (by decide)).1

/-- C7: any failure in the receive path is mapped to a best-effort outgoing
fatal alert whose code follows the failure taxonomy (a TLS exception to its
own alert type — hence an oversized record to record-overflow —, a decoding
failure to decode-error, an internal invariant violation and any other
uncaught fault to internal-error), and the original failure is propagated
unchanged; failures of the alert transmission itself are swallowed inside
`send_alert`, which mirrors the source's catch-all and therefore always
returns. -/
theorem C7_error_policy (ch : Channel) (rs : List TLSRecord) (c : Channel)
    (evs : List Event) (e : TLSError)
    (hfail : ch.receiveLoop rs = .failed c evs e) :
    ch.received_data rs =
      .err e (c.send_alert { type := alertCodeOf e, fatal := true }).1
        (evs ++ (c.send_alert { type := alertCodeOf e, fatal := true }).2) ∧
    (∀ m, alertCodeOf (.decodingError m) = DECODE_ERROR) ∧
    (∀ m, alertCodeOf (.internalError m) = INTERNAL_ERROR) ∧
    (∀ m, alertCodeOf (.runtimeError m) = INTERNAL_ERROR) ∧
    (∀ t m, alertCodeOf (.tlsExc t m) = t) ∧
    (∀ (r2 : TLSRecord) (ch2 : Channel), r2.payload.length > ch2.maxFragment →
      r2.recType ≠ NO_RECORD →
      ch2.processRecord r2 = .fail ch2 []
        (.tlsExc RECORD_OVERFLOW "Plaintext record is too large")) := by
  refine ⟨?_, fun m => rfl, fun m => rfl, fun m => rfl, fun t m => rfl, ?_⟩
  · unfold Channel.received_data
    rw [hfail]
  · intro r2 ch2 hlen hnr
    unfold Channel.processRecord
    rw [if_neg hnr, if_pos hlen]

/-- C7 witness: an oversized application-data record makes the receive path
fail with record-overflow, emit the corresponding fatal alert best-effort,
and propagate the overflow failure unchanged. -/
theorem C7_error_policy_witness :
    Channel.received_data { chanFix with maxFragment := 1 } [appRecFix] =
      .err (.tlsExc RECORD_OVERFLOW "Plaintext record is too large")
        (Channel.send_alert { chanFix with maxFragment := 1 }
          { type := alertCodeOf (.tlsExc RECORD_OVERFLOW "Plaintext record is too large"),
            fatal := true }).1
        ([] ++ (Channel.send_alert { chanFix with maxFragment := 1 }
          { type := alertCodeOf (.tlsExc RECORD_OVERFLOW "Plaintext record is too large"),
            fatal := true }).2) :=
  (C7_error_policy { chanFix with maxFragment := 1 } [appRecFix]
    { chanFix with maxFragment := 1 } []
    (.tlsExc RECORD_OVERFLOW "Plaintext record is too large") rfl).1

/-- C9 counterexample: the salt encoding is ambiguous — the label is not
length-prefixed and an empty context adds no framing — so two distinct
(label, context) pairs can produce identical derivation requests, and hence
identical exported keys for any deterministic PRF, contradicting that the
result differs for any change in label or context. -/
theorem C9_key_export_counterexample :
    Channel.key_material_export chanFix [65] (List.replicate 64 0) 32 =
      Channel.key_material_export chanFix ([65] ++ List.replicate 64 0 ++ [0, 64]) [] 32 ∧
    ¬([65] = [65] ++ List.replicate 64 0 ++ [0, 64] ∧
      List.replicate 64 0 = ([] : List Nat)) :=
  ⟨rfl, by decide⟩

/-- C9 (amended): key export fails without an Active state and rejects
contexts longer than a 16-bit length field; for a fixed Active session the
derivation request handed to the negotiated PRF is a deterministic function
of the master secret, the hello randoms, the label, the context and the
requested length (two calls with equal inputs yield equal keys); a change
in the requested length always changes the request, but distinct
(label, context) pairs are not guaranteed to: the salt encoding
(unprefixed label, unframed empty context) can collide. -/
theorem C9_key_material_export (ch : Channel) (st : Handshake_State)
    (chello : Client_Hello) (shello : Server_Hello)
    (label context : List Nat) (len : Nat)
    (hact : ch.active = some st)
    (hch : st.clientHello = some chello)
    (hsh : st.serverHello = some shello) :
    (context ≠ [] → context.length ≤ 0xFFFF →
      ch.key_material_export label context len =
        .ok { prfId := st.prfId, length := len,
              secret := st.sessionKeys.master_secret,
              salt := label ++ chello.random ++ shello.random ++
                      [context.length / 256 % 256, context.length % 256] ++ context }) ∧
    (context = [] →
      ch.key_material_export label context len =
        .ok { prfId := st.prfId, length := len,
              secret := st.sessionKeys.master_secret,
              salt := label ++ chello.random ++ shello.random }) ∧
    (context ≠ [] → context.length > 0xFFFF →
      ch.key_material_export label context len =
        .error (.runtimeError "key_material_export context is too long")) ∧
    (∀ ch0 : Channel, ch0.active = none → ∀ (l c : List Nat) (n : Nat),
      ch0.key_material_export l c n =
        .error (.runtimeError "key_material_export connection not active")) ∧
    (∀ (n1 n2 : Nat), n1 ≠ n2 → ∀ r1 r2,
      ch.key_material_export label context n1 = .ok r1 →
      ch.key_material_export label context n2 = .ok r2 → r1 ≠ r2) := by
  have hlen : ∀ (n : Nat) (r0 : KDFRequest),
      ch.key_material_export label context n = .ok r0 → r0.length = n := by
    intro n r0 h0
    unfold Channel.key_material_export at h0
    rw [hact] at h0
    dsimp only at h0
    rw [hch, hsh] at h0
    dsimp only at h0
    by_cases hc0 : context ≠ []
    · rw [if_pos hc0] at h0
      by_cases hbig : context.length > 0xFFFF
      · rw [if_pos hbig] at h0
        exact Except.noConfusion h0
      · rw [if_neg hbig] at h0
        cases h0
        rfl
    · rw [if_neg hc0] at h0
      cases h0
      rfl
  refine ⟨?_, ?_, ?_, ?_, ?_⟩
  · intro hne hle
    unfold Channel.key_material_export
    rw [hact]
    dsimp only
    rw [hch, hsh]
    dsimp only
    rw [if_pos hne, if_neg (by omega)]
  · intro hc
    unfold Channel.key_material_export
    rw [hact]
    dsimp only
    rw [hch, hsh]
    dsimp only
    rw [if_neg (by simp [hc])]
  · intro hne hbig
    unfold Channel.key_material_export
    rw [hact]
    dsimp only
    rw [hch, hsh]
    dsimp only
    rw [if_pos hne, if_pos hbig]
  · intro ch0 h0 l c n
    unfold Channel.key_material_export
    rw [h0]
  · intro n1 n2 hne12 r1 r2 h1 h2 heq
    have e1 := hlen n1 r1 h1
    have e2 := hlen n2 r2 h2
    rw [heq] at e1
    exact hne12 (e1.symm.trans e2)

/-- C9 witness: on the concrete active session, export with label "A",
context `[7]` and length 32 produces the expected derivation request. -/
theorem C9_key_material_export_witness :
    Channel.key_material_export chanFix [65] [7] 32 =
      .ok { prfId := stFix.prfId, length := 32,
            secret := stFix.sessionKeys.master_secret,
            salt := [65] ++ chFix.random ++ shFix.random ++
                    [([7] : List Nat).length / 256 % 256, ([7] : List Nat).length % 256]
                    ++ [7] } :=
  (C9_key_material_export chanFix stFix chFix shFix [65] [7] 32 rfl rfl rfl).1
    (by decide) (by decide)
